import Mathlib

/-!
Shallow embedding of the two ingestion pipelines of the stockops project
(`src/project/apps/news/app.py` and `src/project/apps/stocks/app.py`) and
proofs about the specified behaviour: configuration resolution, timestamp
normalization, the news relevance filter, in-batch deduplication, and the
error-isolation structure of the fetch and scheduling loops.

Machine conventions: UTC instants are integers (seconds); Python `int(...)`
is modelled as an `Option Int` parse (`none` = `ValueError`); provider
calls that can raise are modelled by explicit failure constructors; numeric
OHLCV payloads are carried as integers since no claim depends on float
arithmetic, only on field presence.
-/

namespace StockOps

/-! ## Shared helpers modelling Python primitives -/

/-- Python's substring test `needle in hay` on strings. -/
def strContains (hay needle : String) : Bool :=
  (List.range (hay.data.length + 1)).any (fun i => needle.data.isPrefixOf (hay.data.drop i))

/-- Python `s.lower()`: per-character lowercasing (ASCII suffices for the
configuration tokens and the case-insensitive text matching modelled
here). -/
def strLower (s : String) : String := ⟨s.data.map Char.toLower⟩

/-- Python `s.strip()`: removes leading and trailing whitespace. -/
def pyStrip (s : String) : String :=
  ⟨((s.data.dropWhile Char.isWhitespace).reverse.dropWhile Char.isWhitespace).reverse⟩

/-- Decimal digit run accumulator for `pyInt`. -/
def pyDigitsAux : List Char → Nat → Option Nat
  | [], acc => some acc
  | c :: cs, acc => if c.isDigit then pyDigitsAux cs (acc * 10 + (c.toNat - 48)) else none

/-- A non-empty all-digit run, as `int` requires after the optional sign. -/
def pyDigits : List Char → Option Nat
  | [] => none
  | cs => pyDigitsAux cs 0

/-- Python `int(s)`: strips surrounding whitespace and parses an optionally
signed decimal integer literal; `none` models `int` raising `ValueError`. -/
def pyInt (s : String) : Option Int :=
  match (pyStrip s).data with
  | '-' :: cs => (pyDigits cs).map (fun n => -(n : Int))
  | '+' :: cs => (pyDigits cs).map (fun n => (n : Int))
  | cs => (pyDigits cs).map (fun n => (n : Int))

/-- Python `a or b` where `a` is an optional string: `None` and the empty
string are falsy and fall through to `b`. -/
def pyOr (a : Option String) (b : String) : String :=
  match a with
  | some s => if s = "" then b else s
  | none => b

/-- Python `s.strip(c)` for one character: removes every leading and
trailing occurrence of `c`. -/
def pyStripChar (s : String) (c : Char) : String :=
  ⟨((s.data.dropWhile (· = c)).reverse.dropWhile (· = c)).reverse⟩

/-- The apostrophe character, as stripped by `_clean_value`. -/
def squoteChar : Char := Char.ofNat 39

/-- An environment mapping: the process environment, a parsed `.env` file,
or their merge (`os.environ` / `read_env_file` output, key to value). -/
abbrev Env := String → Option String

/-- Python `e.get(k, d)` on an environment mapping. -/
def Env.getD (e : Env) (k d : String) : String := (e k).getD d

/-- Comma-split with per-entry strip and empty-entry drop, as both apps
parse `TICKERS` and the news app parses `NEWS_KEYWORDS`. -/
def splitCommas (s : String) : List String :=
  ((s.splitOn ",").map pyStrip).filter (fun t => t ≠ "")

/-- Seconds-based UTC instant. -/
abbrev Instant := Int

namespace News

/-! ## news/app.py: configuration -/

/-- news `merged_env` (lines 32-35): start from the parsed `.env` file and
overlay the process environment — container env wins. The two inputs are
the already-parsed file mapping and the process environment. -/
def merged_env (fileEnv procEnv : Env) : Env :=
  fun k =>
    match procEnv k with
    | some v => some v
    | none => fileEnv k

/-- One fully resolved news configuration: the dict news `cfg_from_env`
builds (lines 37-47). -/
structure NewsCfg where
  tickers : List String
  backfill_on_start : Bool
  backfill_days : Int
  poll_seconds : Int
  lookback_hours : Int
  require_ticker : Bool
  extra_keywords : List String
deriving DecidableEq, Repr

/-- news `cfg_from_env` (lines 37-47). The three `int(...)` conversions are
not guarded there, so a malformed numeric field raises `ValueError`;
`none` models that raise. -/
def cfg_from_env (e : Env) : Option NewsCfg := do
  let backfill_days ← pyInt (e.getD "NEWS_BACKFILL_DAYS" "30")
  let poll_seconds ← pyInt (e.getD "NEWS_POLL_SECONDS" "900")
  let lookback_hours ← pyInt (e.getD "NEWS_LOOKBACK_HOURS" "24")
  some
    { tickers := splitCommas (e.getD "TICKERS" "AAPL,MSFT,GOOGL,VOD.L,HSBA.L,BP.L")
      backfill_on_start := ["1", "true", "yes", "y"].contains (strLower (e.getD "NEWS_BACKFILL_ON_START" "true"))
      backfill_days := backfill_days
      poll_seconds := poll_seconds
      lookback_hours := lookback_hours
      require_ticker := strLower (e.getD "NEWS_FILTER_REQUIRE_TICKER" "true") == "true"
      extra_keywords := (splitCommas (e.getD "NEWS_KEYWORDS" "")).map strLower }

/-! ## news/app.py: timestamp normalization -/

/-- news `FUTURE_CLAMP` (line 50): 5 minutes, in seconds. -/
def FUTURE_CLAMP : Int := 300

/-- The timestamp evidence one feed entry offers `parse_time` (lines
77-95), after the provider-side string/tuple parsing that the Python
standard library performs: a published/updated/date field that parsed, a
feedparser pre-parsed tuple, or nothing. -/
inductive RawTs where
  | fromDateField (t : Instant)
  | fromParsedTuple (t : Instant)
  | absent
deriving DecidableEq, Repr

/-- The resolution order of news `parse_time` before the clamp: explicit
date field first, then the pre-parsed tuple, else the current time. -/
def resolveRawTs (r : RawTs) (now : Instant) : Instant :=
  match r with
  | .fromDateField t => t
  | .fromParsedTuple t => t
  | .absent => now

/-- news `parse_time` (lines 77-100): timestamp resolution followed by the
future clamp `if ts > now_utc + FUTURE_CLAMP: ts = now_utc`. -/
def parse_time (r : RawTs) (now : Instant) : Instant :=
  let ts := resolveRawTs r now
  if ts > now + FUTURE_CLAMP then now else ts

/-! ## news/app.py: fetch, filter and normalization -/

/-- One raw feed entry as `fetch_news_for_ticker` reads it (lines 112-141):
optional title/summary/description/link strings, the timestamp evidence,
the optional `source["title"]` metadata, and the network domain that
`domain_from_url` extracts from the link (carried as data since `urlparse`
is the standard library's). -/
structure FeedEntry where
  title : Option String
  summary : Option String
  description : Option String
  link : Option String
  ts : RawTs
  sourceTitle : Option String
  linkDomain : String
deriving DecidableEq, Repr

/-- One normalized news record, as appended to `items` (lines 142-149). -/
structure NewsItem where
  ticker : String
  title : String
  summary : String
  url : String
  source : String
  time : Instant
deriving DecidableEq, Repr

/-- The relevance decision of lines 123-130: `want = True`; if
`require_ticker`, `want = ticker.lower() in text_lc`; if the keyword list
is nonempty, `want = want or any(kw in text_lc)`. -/
def relevanceKeep (ticker title summary : String) (requireTicker : Bool)
    (extraKeywords : List String) : Bool :=
  let text_lc := strLower (title ++ " " ++ summary)
  let want := true
  let want := if requireTicker then strContains text_lc (strLower ticker) else want
  if extraKeywords ≠ [] then want || extraKeywords.any (fun kw => strContains text_lc kw) else want

/-- The per-entry body of `fetch_news_for_ticker` (lines 112-149):
mandatory title/link check, timestamp resolution and clamp, lookback
cutoff, relevance filter, source resolution, summary truncation to 800
characters. `none` = the entry is skipped by a `continue`. -/
def normalizeEntry (ticker : String) (fe : FeedEntry) (cutoff now : Instant)
    (requireTicker : Bool) (extraKeywords : List String) : Option NewsItem :=
  let title := pyStrip (pyOr fe.title "")
  let summary := pyStrip (pyOr fe.summary (pyOr fe.description ""))
  let link := pyOr fe.link ""
  if title = "" ∨ link = "" then none
  else
    let ts := parse_time fe.ts now
    if ts < cutoff then none
    else if !relevanceKeep ticker title summary requireTicker extraKeywords then none
    else
      let source0 := pyStrip (pyOr fe.sourceTitle "")
      some
        { ticker := ticker
          title := title
          summary := summary.take 800
          url := link
          source := if source0 = "" then fe.linkDomain else source0
          time := ts }

/-- The outcome of `feedparser.parse(url)` for one feed URL: `error`
models the call raising (caught and logged, lines 106-110), `ok` carries
the entry list. -/
inductive FeedResult where
  | error
  | ok (entries : List FeedEntry)
deriving DecidableEq, Repr

/-- news `fetch_news_for_ticker` (lines 102-151): iterate the feeds; a
failing feed contributes nothing and the loop continues; each surviving
feed contributes its normalized entries in order. -/
def fetch_news_for_ticker (ticker : String) (feeds : List FeedResult)
    (cutoff now : Instant) (requireTicker : Bool) (extraKeywords : List String) : List NewsItem :=
  match feeds with
  | [] => []
  | .error :: rest => fetch_news_for_ticker ticker rest cutoff now requireTicker extraKeywords
  | .ok entries :: rest =>
      entries.filterMap (fun fe => normalizeEntry ticker fe cutoff now requireTicker extraKeywords)
        ++ fetch_news_for_ticker ticker rest cutoff now requireTicker extraKeywords

/-! ## news/app.py: write batch deduplication -/

/-- The dedup identity key of `write_news` (line 161): `(ticker, url)`. -/
def newsKey (it : NewsItem) : String × String := (it.ticker, it.url)

/-- The `seen`-set loop of `write_news` (lines 158-172): an item whose key
was already seen is skipped, otherwise it is kept and its key recorded. -/
def dedupNewsGo : List NewsItem → List (String × String) → List NewsItem
  | [], _ => []
  | it :: rest, seen =>
    if newsKey it ∈ seen then dedupNewsGo rest seen
    else it :: dedupNewsGo rest (newsKey it :: seen)

/-- One `lse_news` point as built at lines 165-171. -/
structure NewsPoint where
  measurement : String
  ticker : String
  source : String
  title : String
  summary : String
  url : String
  time : Instant
deriving DecidableEq, Repr

/-- The point built from one surviving item (lines 165-171); the
`it["source"] or ""` guard is the identity on strings. -/
def newsPointOf (it : NewsItem) : NewsPoint :=
  { measurement := "lse_news"
    ticker := it.ticker
    source := it.source
    title := it.title
    summary := it.summary
    url := it.url
    time := it.time }

/-- The batch `write_news` submits to the write API (lines 158-174):
deduplicate by `(ticker, url)` with the `seen` set, then build points. -/
def write_news_points (items : List NewsItem) : List NewsPoint :=
  (dedupNewsGo items []).map newsPointOf

/-! ## news/app.py: scheduling loop -/

/-- The effect of the config-reload head of one loop cycle (lines
207-213): log on any change, refresh the feed set when the ticker list
changed, and carry the snapshot forward as `last_cfg`. -/
structure ReloadEffect where
  loggedChange : Bool
  refreshedFeeds : Bool
  newLast : NewsCfg
deriving DecidableEq, Repr

/-- news loop lines 209-213: `if cfg != last_cfg` log and, `if
cfg["tickers"] != last_cfg["tickers"]`, reload the feed map. -/
def newsReloadStep (last cfg : NewsCfg) : ReloadEffect :=
  if cfg ≠ last then
    { loggedChange := true
      refreshedFeeds := cfg.tickers != last.tickers
      newLast := cfg }
  else
    { loggedChange := false, refreshedFeeds := false, newLast := last }

/-- What happens inside the `try` of one news loop cycle (lines 206-223):
either the reload head itself raises (`merged_env`/`cfg_from_env`, e.g. a
malformed numeric field), or the reload binds `cfg` and the
fetch/filter/write body raises, or the whole body completes. -/
inductive CycleEvent where
  | reloadRaises
  | bodyRaises (cfg : NewsCfg)
  | bodyOk (cfg : NewsCfg)
deriving DecidableEq, Repr

/-- How one news loop cycle ends: at `time.sleep(cfg["poll_seconds"])`
(line 224), or in an uncaught `NameError` when that sleep reads the local
`cfg` before any cycle has bound it. -/
inductive CycleOutcome where
  | slept (seconds : Int)
  | crashedNameError
deriving DecidableEq, Repr

/-- One iteration of the news main loop (lines 205-224). `bound` is the
Python local `cfg`, unbound (`none`) before the first successful reload:
every exception inside the `try` is caught and logged, after which
`time.sleep(cfg["poll_seconds"])` runs outside the `try` — it reads the
current binding of `cfg`, and raises `NameError` if no cycle ever bound
it. Returns the outcome and the binding of `cfg` after the cycle. -/
def newsLoopCycle (bound : Option NewsCfg) (ev : CycleEvent) : CycleOutcome × Option NewsCfg :=
  match ev with
  | .bodyOk cfg => (.slept cfg.poll_seconds, some cfg)
  | .bodyRaises cfg => (.slept cfg.poll_seconds, some cfg)
  | .reloadRaises =>
      match bound with
      | some cfg => (.slept cfg.poll_seconds, some cfg)
      | none => (.crashedNameError, none)

end News

namespace Stocks

/-! ## stocks/app.py: configuration -/

/-- stocks `_clean_value` (lines 19-21): text before the first `#`,
stripped of whitespace, then of double quotes, then of single quotes. -/
def _clean_value (v : String) : String :=
  pyStripChar (pyStripChar (pyStrip ((v.splitOn "#").headD v)) '"') squoteChar

/-- stocks `merged_env` (lines 38-47): start from the sanitized process
environment and overlay the parsed `.env` file (also sanitized) — the
file wins. The file mapping is `read_env_file`'s output. -/
def merged_env (fileEnv procEnv : Env) : Env :=
  fun k =>
    match fileEnv k with
    | some v => some (_clean_value v)
    | none => (procEnv k).map _clean_value

/-- stocks `ALLOWED_PERIODS` (lines 11-13). -/
def ALLOWED_PERIODS : List String :=
  ["1d", "5d", "1mo", "3mo", "6mo", "1y", "2y", "5y", "10y", "ytd", "max"]

/-- stocks `ALLOWED_INTERVALS` (lines 14-16). -/
def ALLOWED_INTERVALS : List String :=
  ["1m", "2m", "5m", "15m", "30m", "60m", "90m", "1h", "1d", "5d", "1wk", "1mo", "3mo"]

/-- stocks `default_backfill_period` (lines 49-57). -/
def default_backfill_period (interval : String) : String :=
  let i := strLower interval
  if i = "1m" then "7d"
  else if i ∈ ["2m", "5m", "15m", "30m"] then "60d"
  else if i ∈ ["60m", "90m", "1h"] then "2y"
  else "max"

/-- stocks `get_cfg` lines 66-69: an interval outside the allowed set
falls back to `1m` with a warning. -/
def resolve_yf_interval (raw : String) : String :=
  if raw ∈ ALLOWED_INTERVALS then raw else "1m"

/-- stocks `get_cfg` lines 71-77: a period literal outside the allowed
set is replaced by `default_backfill_period` of the (already resolved)
interval when that fallback is itself an allowed literal, else by `5d`. -/
def resolve_yf_period (yf_interval raw : String) : String :=
  if raw ∈ ALLOWED_PERIODS then raw
  else
    let fallback := default_backfill_period yf_interval
    if fallback ∈ ALLOWED_PERIODS then fallback else "5d"

/-- One fully resolved stocks configuration: the dict `get_cfg` returns
(lines 90-97). -/
structure StocksCfg where
  tickers : List String
  yf_interval : String
  yf_period : String
  backfill_on_start : Bool
  backfill_period : String
  fetch_interval : Int
deriving DecidableEq, Repr

/-- stocks `get_cfg` (lines 59-97): every field is resolved locally with a
fallback, so the snapshot is always produced. -/
def get_cfg (e : Env) : StocksCfg :=
  let yf_interval := resolve_yf_interval (e.getD "YF_INTERVAL" "1m")
  let bp := pyStrip (e.getD "BACKFILL_PERIOD" "")
  let fi := pyStrip (e.getD "FETCH_INTERVAL_SECONDS" "300")
  { tickers := splitCommas (e.getD "TICKERS" "VOD.L,HSBA.L,BP.L")
    yf_interval := yf_interval
    yf_period := resolve_yf_period yf_interval (e.getD "YF_PERIOD" "1d")
    backfill_on_start := ["1", "true", "yes", "y"].contains (strLower (e.getD "BACKFILL_ON_START" "true"))
    backfill_period := if bp ≠ "" ∧ bp ∉ ALLOWED_PERIODS then "" else bp
    fetch_interval := (pyInt (if fi = "" then "300" else fi)).getD 300 }

/-! ## stocks/app.py: fetch and point construction -/

/-- stocks `ensure_utc` (lines 100-101): `pd.to_datetime(ts, utc=True)`
converts the representation to UTC but preserves the instant; no clamping
of any kind is performed. -/
def ensure_utc (ts : Instant) : Instant := ts

/-- One provider candle for one ticker, after `normalize_datetime` and the
column rename of lines 139-142: the row's datetime and its OHLCV payload,
each field `none` when the source cell is missing (`pd.notna` false). -/
structure RawCandle where
  datetime : Instant
  open_v : Option Int
  high_v : Option Int
  low_v : Option Int
  close_v : Option Int
  adj_close_v : Option Int
  volume_v : Option Int
deriving DecidableEq, Repr

/-- One row of the frame `fetch` returns (line 152's column order):
ticker and currency columns attached, candle payload carried through. -/
structure PriceRow where
  ticker : String
  datetime : Instant
  open_v : Option Int
  high_v : Option Int
  low_v : Option Int
  close_v : Option Int
  adj_close_v : Option Int
  volume_v : Option Int
  currency : String
deriving DecidableEq, Repr

/-- Attaching `df_t['ticker'] = t` and `df_t['currency'] = currency`
(lines 143-152) to one candle row. -/
def candleRow (t currency : String) (c : RawCandle) : PriceRow :=
  { ticker := t
    datetime := c.datetime
    open_v := c.open_v
    high_v := c.high_v
    low_v := c.low_v
    close_v := c.close_v
    adj_close_v := c.adj_close_v
    volume_v := c.volume_v
    currency := currency }

/-- The per-ticker slice of one `yf.download` result (lines 126-133):
`none` when the ticker is absent from the frame's columns, otherwise its
(possibly empty) candle rows. -/
abbrev DownloadData := String → Option (List RawCandle)

/-- The `fast_info` currency lookup of lines 145-151: the empty string
when the lookup raises or reports nothing. -/
abbrev CurrencyLookup := String → String

/-- The frame-collection loop of stocks `fetch` (lines 124-153): a ticker
missing from the download or with an empty frame contributes nothing
(logged, `continue`); each surviving ticker contributes its rows. -/
def fetch_rows (tickers : List String) (data : DownloadData) (cur : CurrencyLookup) : List PriceRow :=
  match tickers with
  | [] => []
  | t :: rest =>
      (match data t with
       | none => []
       | some cs => if cs = [] then [] else cs.map (candleRow t (cur t)))
        ++ fetch_rows rest data cur

/-- The `sort_values(['ticker','datetime'])` order of line 157. -/
def rowLE (a b : PriceRow) : Bool :=
  decide (a.ticker < b.ticker) || (a.ticker == b.ticker && decide (a.datetime ≤ b.datetime))

/-- stocks `fetch` (lines 114-157): collect the surviving tickers' rows
and sort by ticker then datetime (`pd.concat(...).sort_values(...)`). -/
def fetch (tickers : List String) (data : DownloadData) (cur : CurrencyLookup) : List PriceRow :=
  (fetch_rows tickers data cur).mergeSort rowLE

/-- One `lse_prices` point as built at lines 166-177: tags, the fields
present in the row, and the row's timestamp through `ensure_utc`. -/
structure PricePoint where
  measurement : String
  ticker : String
  exchange : String
  currency : String
  fields : List (String × Int)
  time : Instant
deriving DecidableEq, Repr

/-- The point built from one row (lines 166-177): exchange from the
`.L`-suffix convention, one field per non-missing cell, `ensure_utc`
on the timestamp. -/
def pricePointOf (row : PriceRow) : PricePoint :=
  { measurement := "lse_prices"
    ticker := row.ticker
    exchange := if row.ticker.endsWith ".L" then "LSE" else "US"
    currency := row.currency
    fields :=
      [("open", row.open_v), ("high", row.high_v), ("low", row.low_v),
       ("close", row.close_v), ("adj_close", row.adj_close_v),
       ("volume", row.volume_v)].filterMap (fun p => p.2.map (fun v => (p.1, v)))
    time := ensure_utc row.datetime }

/-- The batch `write_to_influx` submits (lines 159-177): one point per
row, in row order — no in-batch deduplication of any kind. -/
def write_to_influx_points (rows : List PriceRow) : List PricePoint :=
  rows.map pricePointOf

/-- A one-candle download slice for concrete examples: ticker `B`'s slice
is missing from the frame, every other ticker has one candle. -/
def exampleData : DownloadData := fun t =>
  if t = "B" then none
  else
    some [{ datetime := 100, open_v := some 1, high_v := none, low_v := none,
            close_v := none, adj_close_v := none, volume_v := none }]

/-- A constant currency lookup for concrete examples. -/
def exampleCur : CurrencyLookup := fun _ => "USD"

end Stocks

/-! ## Helper lemmas -/

/-- The clamp of news `parse_time` bounds every resolved timestamp. -/
theorem parse_time_le (r : News.RawTs) (now : Instant) :
    News.parse_time r now ≤ now + News.FUTURE_CLAMP := by
  unfold News.parse_time News.FUTURE_CLAMP
  dsimp only
  split <;> linarith

/-- A resolved timestamp beyond the allowance is replaced by `now`. -/
theorem parse_time_clamps (r : News.RawTs) (now : Instant)
    (h : News.resolveRawTs r now > now + News.FUTURE_CLAMP) :
    News.parse_time r now = now := by
  unfold News.parse_time
  rw [if_pos h]

/-- A surviving entry's Point timestamp is exactly `parse_time` of its raw
timestamp evidence. -/
theorem normalizeEntry_time (ticker : String) (fe : News.FeedEntry) (cutoff now : Instant)
    (rt : Bool) (kws : List String) (it : News.NewsItem)
    (h : News.normalizeEntry ticker fe cutoff now rt kws = some it) :
    it.time = News.parse_time fe.ts now := by
  unfold News.normalizeEntry at h
  dsimp only at h
  split at h
  · exact absurd h (by simp)
  · split at h
    · exact absurd h (by simp)
    · split at h
      · exact absurd h (by simp)
      · rw [Option.some.injEq] at h
        rw [← h]

/-- The interval fallback is always one of the allowed interval literals. -/
theorem resolve_yf_interval_mem (raw : String) :
    Stocks.resolve_yf_interval raw ∈ Stocks.ALLOWED_INTERVALS := by
  unfold Stocks.resolve_yf_interval
  split
  · assumption
  · decide

/-- The resolved period is always one of the allowed period literals. -/
theorem resolve_yf_period_mem (interval raw : String) :
    Stocks.resolve_yf_period interval raw ∈ Stocks.ALLOWED_PERIODS := by
  unfold Stocks.resolve_yf_period
  dsimp only
  split
  · assumption
  · split
    · assumption
    · decide

/-! ## Claim theorems -/

/-- C2, counterexample: the market pipeline does not clamp future
timestamps. With the current time at 0, a raw candle stamped one year in
the future (31536000 s) yields a `lse_prices` point whose timestamp still
exceeds `now + 5 minutes`, because `ensure_utc` only converts the
representation to UTC. -/
theorem C2_market_no_clamp :
    (Stocks.pricePointOf
        { ticker := "VOD.L", datetime := 31536000, open_v := some 100, high_v := none,
          low_v := none, close_v := none, adj_close_v := none, volume_v := some 5,
          currency := "GBp" }).time = 31536000 ∧ (31536000 : Int) > 0 + News.FUTURE_CLAMP := by
  constructor
  · rfl
  · decide

/-- C2, amended: only the news pipeline enforces the future-clamp
invariant. Every news timestamp satisfies `parse_time ≤ now + 5 min`, a
raw timestamp beyond the allowance is clamped to `now`, and every Point
normalization produces obeys the bound; the market pipeline's
`ensure_utc` preserves the raw instant unchanged and performs no clamp. -/
theorem C2_clamp_news_only :
    (∀ (r : News.RawTs) (now : Instant), News.parse_time r now ≤ now + News.FUTURE_CLAMP) ∧
    (∀ (r : News.RawTs) (now : Instant),
        News.resolveRawTs r now > now + News.FUTURE_CLAMP → News.parse_time r now = now) ∧
    (∀ (ticker : String) (fe : News.FeedEntry) (cutoff now : Instant) (rt : Bool)
        (kws : List String) (it : News.NewsItem),
        News.normalizeEntry ticker fe cutoff now rt kws = some it →
        it.time ≤ now + News.FUTURE_CLAMP) ∧
    (∀ ts : Instant, Stocks.ensure_utc ts = ts) := by
  refine ⟨parse_time_le, parse_time_clamps, ?_, fun _ => rfl⟩
  intro ticker fe cutoff now rt kws it h
  rw [normalizeEntry_time ticker fe cutoff now rt kws it h]
  exact parse_time_le fe.ts now

/-- C4, counterexample: the combination interval `1m` with period `6mo`
is not rejected. `6mo` is an allowed period literal, so `get_cfg` keeps
it unchanged instead of replacing it with the interval-derived fallback
`7d`; the spec's fallback scenario does not happen. -/
theorem C4_combination_kept :
    Stocks.resolve_yf_interval "1m" = "1m" ∧
    Stocks.resolve_yf_period "1m" "6mo" = "6mo" ∧
    Stocks.default_backfill_period "1m" = "7d" ∧ ("6mo" : String) ≠ "7d" := by
  refine ⟨by decide, by decide, by decide, by decide⟩

/-- C4, amended: configuration resolution validates only the period
literal, never the period/interval combination. A period in the allowed
set is kept for any interval; a period outside the set is replaced,
without error, by the interval-derived fallback when that fallback is
itself an allowed literal (hourly intervals → `2y`, default → `max`) and
by `5d` otherwise — the documented `1m → 7d` and sub-hour → `60d`
fallbacks are not allowed period literals, so those intervals resolve to
`5d`. The resolved period is always an allowed literal. -/
theorem C4_period_literal_fallback :
    (∀ interval raw, raw ∈ Stocks.ALLOWED_PERIODS →
        Stocks.resolve_yf_period interval raw = raw) ∧
    (∀ interval raw, Stocks.resolve_yf_period interval raw ∈ Stocks.ALLOWED_PERIODS) ∧
    (∀ raw, raw ∉ Stocks.ALLOWED_PERIODS →
        Stocks.resolve_yf_period "1m" raw = "5d" ∧
        Stocks.default_backfill_period "1m" = "7d") ∧
    (∀ raw, raw ∉ Stocks.ALLOWED_PERIODS →
        Stocks.resolve_yf_period "5m" raw = "5d" ∧
        Stocks.default_backfill_period "5m" = "60d") ∧
    (∀ raw, raw ∉ Stocks.ALLOWED_PERIODS → Stocks.resolve_yf_period "1h" raw = "2y") ∧
    (∀ raw, raw ∉ Stocks.ALLOWED_PERIODS → Stocks.resolve_yf_period "1d" raw = "max") := by
  refine ⟨?_, resolve_yf_period_mem, ?_, ?_, ?_, ?_⟩
  · intro interval raw h
    unfold Stocks.resolve_yf_period
    rw [if_pos h]
  all_goals
    intro raw h
    unfold Stocks.resolve_yf_period
    rw [if_neg h]
    exact (by decide)

/-- C5: a news record whose title is missing or empty, or whose link is
missing or empty, is dropped silently by normalization — it yields no
item and hence contributes no Point to the batch. -/
theorem C5_mandatory_fields (ticker : String) (fe : News.FeedEntry) (cutoff now : Instant)
    (rt : Bool) (kws : List String)
    (h : fe.title = none ∨ fe.title = some "" ∨ fe.link = none ∨ fe.link = some "") :
    News.normalizeEntry ticker fe cutoff now rt kws = none := by
  unfold News.normalizeEntry
  dsimp only
  rcases h with h | h | h | h
  · rw [h, if_pos (Or.inl (by decide))]
  · rw [h, if_pos (Or.inl (by decide))]
  · rw [h, if_pos (Or.inr (by decide))]
  · rw [h, if_pos (Or.inr (by decide))]

/-- C5, witness: a concrete entry with no title is dropped. -/
theorem C5_mandatory_fields_witness :
    News.normalizeEntry "VOD.L"
      { title := none, summary := some "s", description := none,
        link := some "https://example.com/a", ts := .absent, sourceTitle := none,
        linkDomain := "example.com" } 0 0 true [] = none :=
  C5_mandatory_fields "VOD.L" _ 0 0 true [] (Or.inl rfl)


/-- C6: config snapshots are compared structurally — two snapshots are
equal iff every field is equal, in both pipelines; any change makes the
reload step take the change-log path, and a change in the ticker list is
exactly what triggers the news feed-set refresh. -/
theorem C6_snapshot_equality :
    (∀ a b : News.NewsCfg, a = b ↔
      (a.tickers = b.tickers ∧ a.backfill_on_start = b.backfill_on_start ∧
       a.backfill_days = b.backfill_days ∧ a.poll_seconds = b.poll_seconds ∧
       a.lookback_hours = b.lookback_hours ∧ a.require_ticker = b.require_ticker ∧
       a.extra_keywords = b.extra_keywords)) ∧
    (∀ a b : Stocks.StocksCfg, a = b ↔
      (a.tickers = b.tickers ∧ a.yf_interval = b.yf_interval ∧ a.yf_period = b.yf_period ∧
       a.backfill_on_start = b.backfill_on_start ∧ a.backfill_period = b.backfill_period ∧
       a.fetch_interval = b.fetch_interval)) ∧
    (∀ last cfg : News.NewsCfg,
       (News.newsReloadStep last cfg).loggedChange = true ↔ cfg ≠ last) ∧
    (∀ last cfg : News.NewsCfg,
       (News.newsReloadStep last cfg).refreshedFeeds = true ↔ cfg.tickers ≠ last.tickers) := by
  refine ⟨?_, ?_, ?_, ?_⟩
  · intro a b
    cases a; cases b
    simp [News.NewsCfg.mk.injEq]
  · intro a b
    cases a; cases b
    simp [Stocks.StocksCfg.mk.injEq]
  · intro last cfg
    unfold News.newsReloadStep
    by_cases hc : cfg = last
    · simp [hc]
    · simp [hc]
  · intro last cfg
    unfold News.newsReloadStep
    by_cases hc : cfg = last
    · simp [hc]
    · simp [hc, bne_iff_ne]

/-- C7, counterexample: news configuration loading does fail on a
malformed numeric field. With `NEWS_BACKFILL_DAYS=abc` in the
environment, `cfg_from_env` raises `ValueError` (modelled as `none`)
instead of producing a snapshot with a fallback. -/
theorem C7_news_load_raises :
    News.cfg_from_env (fun k => if k = "NEWS_BACKFILL_DAYS" then some "abc" else none) =
      none := by
  decide

/-- C7, amended: configuration loading never fails only in the stocks
pipeline, where invalid enumerated values are replaced by documented
fallbacks (the resolved interval and period are always allowed literals,
the optional backfill override is kept only when allowed) and malformed
numerics fall back to the default. In the news pipeline the boolean and
list fields are fallback-protected but the numeric fields are not:
loading produces a snapshot exactly when all three numeric fields parse,
and raises otherwise. -/
theorem C7_load_fallbacks :
    (∀ e : Env, (Stocks.get_cfg e).yf_interval ∈ Stocks.ALLOWED_INTERVALS ∧
       (Stocks.get_cfg e).yf_period ∈ Stocks.ALLOWED_PERIODS ∧
       ((Stocks.get_cfg e).backfill_period = "" ∨
        (Stocks.get_cfg e).backfill_period ∈ Stocks.ALLOWED_PERIODS)) ∧
    (∀ e : Env, (News.cfg_from_env e).isSome =
       ((pyInt (e.getD "NEWS_BACKFILL_DAYS" "30")).isSome &&
        (pyInt (e.getD "NEWS_POLL_SECONDS" "900")).isSome &&
        (pyInt (e.getD "NEWS_LOOKBACK_HOURS" "24")).isSome)) := by
  constructor
  · intro e
    refine ⟨resolve_yf_interval_mem _, resolve_yf_period_mem _ _, ?_⟩
    unfold Stocks.get_cfg
    dsimp only
    split
    · exact Or.inl rfl
    · rename_i hcond
      push_neg at hcond
      by_cases hbp : pyStrip (Env.getD e "BACKFILL_PERIOD" "") = ""
      · exact Or.inl hbp
      · exact Or.inr (hcond hbp)
  · intro e
    unfold News.cfg_from_env
    rcases h1 : pyInt (Env.getD e "NEWS_BACKFILL_DAYS" "30") with _ | v1 <;>
      rcases h2 : pyInt (Env.getD e "NEWS_POLL_SECONDS" "900") with _ | v2 <;>
        rcases h3 : pyInt (Env.getD e "NEWS_LOOKBACK_HOURS" "24") with _ | v3 <;>
          simp [h1, h2, h3]

/-- C8, counterexample: an error other than a startup construction
failure can terminate the news loop. If the config reload of the very
first cycle raises (e.g. a malformed `NEWS_BACKFILL_DAYS` appears in the
hot-reloaded `.env`), the exception is caught, but the cycle's trailing
`time.sleep(cfg["poll_seconds"])` then reads the never-bound local `cfg`
and the uncaught `NameError` kills the loop. -/
theorem C8_first_cycle_crash :
    (News.newsLoopCycle none News.CycleEvent.reloadRaises).1 =
      News.CycleOutcome.crashedNameError := rfl

/-- C8, amended: every exception raised by the fetch/normalize/filter/
write body of a news cycle is caught and the loop proceeds to sleeping
for the configured cadence; the one way a cycle can terminate the loop is
a config-reload exception in the first cycle, before the local `cfg` was
ever bound — the sleep then raises an uncaught `NameError`. -/
theorem C8_cycle_errors_contained :
    (∀ (bound : Option News.NewsCfg) (cfg : News.NewsCfg),
       (News.newsLoopCycle bound (News.CycleEvent.bodyRaises cfg)).1 =
         News.CycleOutcome.slept cfg.poll_seconds ∧
       (News.newsLoopCycle bound (News.CycleEvent.bodyOk cfg)).1 =
         News.CycleOutcome.slept cfg.poll_seconds) ∧
    (∀ (bound : Option News.NewsCfg) (ev : News.CycleEvent),
       (News.newsLoopCycle bound ev).1 = News.CycleOutcome.crashedNameError ↔
         bound = none ∧ ev = News.CycleEvent.reloadRaises) := by
  constructor
  · intro bound cfg
    exact ⟨rfl, rfl⟩
  · intro bound ev
    cases ev <;> cases bound <;> simp [News.newsLoopCycle]

/-- C10: for a key set in both the process environment and the `.env`
file with different values, the two pipelines resolve precedence in
opposite orders — the news `merged_env` returns the process value
(container env wins), the stocks `merged_env` returns the (sanitized)
file value (file wins). -/
theorem C10_merge_precedence (fileEnv procEnv : Env) (k vf vp : String)
    (hf : fileEnv k = some vf) (hp : procEnv k = some vp) (_hne : vf ≠ vp) :
    News.merged_env fileEnv procEnv k = some vp ∧
    Stocks.merged_env fileEnv procEnv k = some (Stocks._clean_value vf) := by
  unfold News.merged_env Stocks.merged_env
  rw [hf, hp]
  exact ⟨rfl, rfl⟩

/-- C10, witness: a concrete key present in both sources. -/
theorem C10_merge_precedence_witness :
    News.merged_env (fun _ => some "filevalue") (fun _ => some "procvalue") "TICKERS" =
      some "procvalue" ∧
    Stocks.merged_env (fun _ => some "filevalue") (fun _ => some "procvalue") "TICKERS" =
      some (Stocks._clean_value "filevalue") :=
  C10_merge_precedence (fun _ => some "filevalue") (fun _ => some "procvalue") "TICKERS"
    "filevalue" "procvalue" rfl rfl (by decide)


/-- C3, counterexample: the relevance filter is more permissive than
claimed. With `require_ticker` off and keywords configured, a record
matching neither the symbol text nor any keyword is still kept (`want`
starts `True` and is only OR-ed with the keyword match), whereas the
claimed rule (a)/(b)/(c) would drop it. -/
theorem C3_filter_permissive :
    News.relevanceKeep "VOD.L" "Unrelated company news" "" false ["earnings"] = true ∧
    strContains (strLower ("Unrelated company news" ++ " " ++ "")) (strLower "VOD.L") = false ∧
    strContains (strLower ("Unrelated company news" ++ " " ++ "")) "earnings" = false ∧
    (["earnings"] : List String) ≠ [] := by
  refine ⟨by decide, by decide, by decide, by decide⟩

/-- C3, amended: a record passing the mandatory-field and lookback checks
is kept by the relevance filter iff `require_ticker` is off, or the
symbol text appears case-insensitively in title+summary, or some
configured extra keyword appears in the lowercased title+summary; in
particular, with `require_ticker` off every record is kept regardless of
the keyword list. -/
theorem C3_filter_rule (ticker title summary : String) (rt : Bool) (kws : List String) :
    News.relevanceKeep ticker title summary rt kws = true ↔
      (rt = false ∨
       strContains (strLower (title ++ " " ++ summary)) (strLower ticker) = true ∨
       ∃ kw ∈ kws, strContains (strLower (title ++ " " ++ summary)) kw = true) := by
  unfold News.relevanceKeep
  dsimp only
  by_cases hk : kws = []
  · cases rt <;> simp [hk]
  · cases rt <;> simp [hk, List.any_eq_true]


/-- Filtering the dedup output by one identity key: nothing survives for
a key already in `seen`; otherwise exactly the first batch item carrying
that key survives. -/
theorem dedupNewsGo_filter (k : String × String) :
    ∀ (items : List News.NewsItem) (seen : List (String × String)),
      (News.dedupNewsGo items seen).filter (fun it => decide (News.newsKey it = k)) =
        if k ∈ seen then []
        else (items.filter (fun it => decide (News.newsKey it = k))).take 1 := by
  intro items
  induction items with
  | nil =>
    intro seen
    by_cases hks : k ∈ seen <;> simp [News.dedupNewsGo, hks]
  | cons it rest ih =>
    intro seen
    simp only [News.dedupNewsGo]
    by_cases hmem : News.newsKey it ∈ seen
    · rw [if_pos hmem, ih seen]
      by_cases hkk : News.newsKey it = k
      · have hks : k ∈ seen := hkk ▸ hmem
        simp [hks]
      · by_cases hks : k ∈ seen
        · simp [hks]
        · simp [hks, List.filter_cons, hkk]
    · rw [if_neg hmem]
      by_cases hkk : News.newsKey it = k
      · have hks : ¬k ∈ seen := fun hx => hmem (hkk ▸ hx)
        have htail := ih (News.newsKey it :: seen)
        rw [if_pos (by simp [hkk])] at htail
        rw [hkk] at htail
        simp [hks, List.filter_cons, hkk, htail]
      · have htail := ih (News.newsKey it :: seen)
        by_cases hks : k ∈ seen
        · rw [if_pos (by simp [hks])] at htail
          simp [hks, List.filter_cons, hkk, htail]
        · rw [if_neg (by simp [hkk, hks, Ne.symm])] at htail
          simp [hks, List.filter_cons, hkk, htail]

/-- C1, counterexample: dedup does not keep the later-processed point.
Two news records for the same symbol and URL differing only in summary
text collapse to the FIRST-processed one (the `seen`-set skips the later
duplicate); and the price batch performs no in-batch collapsing at all —
two rows with the same `(symbol, timestamp)` both become points. -/
theorem C1_last_wins_false :
    News.write_news_points
        [{ ticker := "VOD.L", title := "Vodafone beats forecast", summary := "first summary",
           url := "https://news.example/a", source := "news.example", time := 100 },
         { ticker := "VOD.L", title := "Vodafone beats forecast", summary := "second summary",
           url := "https://news.example/a", source := "news.example", time := 100 }] =
      [News.newsPointOf
        { ticker := "VOD.L", title := "Vodafone beats forecast", summary := "first summary",
          url := "https://news.example/a", source := "news.example", time := 100 }] ∧
    ("first summary" : String) ≠ "second summary" ∧
    (Stocks.write_to_influx_points
        [{ ticker := "VOD.L", datetime := 100, open_v := some 1, high_v := none, low_v := none,
           close_v := none, adj_close_v := none, volume_v := none, currency := "GBp" },
         { ticker := "VOD.L", datetime := 100, open_v := some 2, high_v := none, low_v := none,
           close_v := none, adj_close_v := none, volume_v := none, currency := "GBp" }]).length =
      2 := by
  refine ⟨by decide, by decide, by decide⟩

/-- C1, amended: within one news write batch, all points sharing one
identity key `(symbol, url)` are collapsed to exactly one before
submission, and the survivor is the FIRST-processed item of the batch
with that key (first-seen wins, not last); the price write batch is not
collapsed at all — it submits exactly one point per row, in-batch
duplicates of `(symbol, timestamp)` included (sink idempotency is what
absorbs them). -/
theorem C1_dedup_first_wins :
    (∀ (items : List News.NewsItem) (k : String × String),
       (News.write_news_points items).filter (fun p => decide ((p.ticker, p.url) = k)) =
         ((items.filter (fun it => decide (News.newsKey it = k))).take 1).map
           News.newsPointOf) ∧
    (∀ rows : List Stocks.PriceRow,
       (Stocks.write_to_influx_points rows).length = rows.length) := by
  constructor
  · intro items k
    unfold News.write_news_points
    rw [List.filter_map]
    have hpred :
        ((fun p : News.NewsPoint => decide ((p.ticker, p.url) = k)) ∘ News.newsPointOf) =
          fun it : News.NewsItem => decide (News.newsKey it = k) := by
      funext it
      simp [News.newsPointOf, News.newsKey]
    rw [hpred, dedupNewsGo_filter k items []]
    simp
  · intro rows
    unfold Stocks.write_to_influx_points
    simp

/-- Splitting the ticker list splits the collected rows: the frame loop
is independent per ticker. -/
theorem fetch_rows_append (l1 l2 : List String) (data : Stocks.DownloadData)
    (cur : Stocks.CurrencyLookup) :
    Stocks.fetch_rows (l1 ++ l2) data cur =
      Stocks.fetch_rows l1 data cur ++ Stocks.fetch_rows l2 data cur := by
  induction l1 with
  | nil => simp [Stocks.fetch_rows]
  | cons t rest ih => simp [Stocks.fetch_rows, ih]

/-- Splitting the feed list splits the collected news items: the feed
loop is independent per feed. -/
theorem fetch_news_append (ticker : String) (l1 l2 : List News.FeedResult)
    (cutoff now : Instant) (rt : Bool) (kws : List String) :
    News.fetch_news_for_ticker ticker (l1 ++ l2) cutoff now rt kws =
      News.fetch_news_for_ticker ticker l1 cutoff now rt kws ++
        News.fetch_news_for_ticker ticker l2 cutoff now rt kws := by
  induction l1 with
  | nil => simp [News.fetch_news_for_ticker]
  | cons f rest ih => cases f <;> simp [News.fetch_news_for_ticker, ih]

/-- C9: failure of one unit does not abort the others. A ticker whose
download slice is missing contributes nothing and the market cycle's
batch is (up to the final sort) exactly the surviving tickers' rows; a
failing feed contributes nothing and the news items are exactly those of
the surviving feeds; and a completed cycle ends in the scheduled sleep. -/
theorem C9_partial_failure_isolated :
    (∀ (pre post : List String) (b : String) (data : Stocks.DownloadData)
        (cur : Stocks.CurrencyLookup), data b = none →
        (Stocks.fetch (pre ++ b :: post) data cur).Perm
          (Stocks.fetch pre data cur ++ Stocks.fetch post data cur)) ∧
    (∀ (ticker : String) (pre post : List News.FeedResult) (cutoff now : Instant)
        (rt : Bool) (kws : List String),
        News.fetch_news_for_ticker ticker (pre ++ News.FeedResult.error :: post)
            cutoff now rt kws =
          News.fetch_news_for_ticker ticker pre cutoff now rt kws ++
            News.fetch_news_for_ticker ticker post cutoff now rt kws) ∧
    (∀ (bound : Option News.NewsCfg) (cfg : News.NewsCfg),
        (News.newsLoopCycle bound (News.CycleEvent.bodyOk cfg)).1 =
          News.CycleOutcome.slept cfg.poll_seconds) := by
  refine ⟨?_, ?_, fun _ _ => rfl⟩
  · intro pre post b data cur hb
    unfold Stocks.fetch
    have hrows : Stocks.fetch_rows (pre ++ b :: post) data cur =
        Stocks.fetch_rows pre data cur ++ Stocks.fetch_rows post data cur := by
      rw [fetch_rows_append]
      congr 1
      simp [Stocks.fetch_rows, hb]
    rw [hrows]
    exact (List.mergeSort_perm _ Stocks.rowLE).trans
      ((List.mergeSort_perm _ Stocks.rowLE).append
        (List.mergeSort_perm _ Stocks.rowLE)).symm
  · intro ticker pre post cutoff now rt kws
    rw [fetch_news_append]
    rfl

/-- C9, witness: with tickers `[A, B, C]` and `B`'s download missing,
the batch is a permutation of `A`'s rows followed by `C`'s rows. -/
theorem C9_partial_failure_isolated_witness :
    (Stocks.fetch (["A"] ++ "B" :: ["C"]) Stocks.exampleData Stocks.exampleCur).Perm
      (Stocks.fetch ["A"] Stocks.exampleData Stocks.exampleCur ++
        Stocks.fetch ["C"] Stocks.exampleData Stocks.exampleCur) :=
  C9_partial_failure_isolated.1 ["A"] ["C"] "B" Stocks.exampleData Stocks.exampleCur
    (by decide)

end StockOps
